import Mathlib

/-!
# Verification of the dtrust anchoring/verification core

Shallow embedding of the dtrust server core
(`src/server/src/api/controllers/anchor.controller.ts`,
`src/server/src/api/controllers/verify.controller.ts`,
`src/server/src/services/{did,hedera,mirror,document,registry}.service.ts`)
together with proofs of the frozen claims about it.

External collaborators (Hedera DID resolution, the multibase key decoder,
the Ed25519 primitive, HCS execution, the mirror-node fetch, the registry
contract call, and the Prisma-backed tables) are modelled as oracle fields
of environment records; everything the repository itself implements is
translated directly from the TypeScript source.  Network/database calls are
additionally recorded in an effect trace so that "no network call / no
index write happened" claims can be stated.
-/

namespace Dtrust

/-- Hex value of a single character, as Node's hex decoder accepts it. -/
def hexVal (c : Char) : Option Nat :=
  if '0' ≤ c ∧ c ≤ '9' then some (c.toNat - '0'.toNat)
  else if 'a' ≤ c ∧ c ≤ 'f' then some (c.toNat - 'a'.toNat + 10)
  else if 'A' ≤ c ∧ c ≤ 'F' then some (c.toNat - 'A'.toNat + 10)
  else none

/-- `Buffer.from(s, "hex")`: decode consecutive hex pairs, stopping at the
first pair that is incomplete or contains a non-hex character. -/
def hexDecode : List Char → List Nat
  | c1 :: c2 :: rest =>
    match hexVal c1, hexVal c2 with
    | some a, some b => (16 * a + b) :: hexDecode rest
    | _, _ => []
  | _ => []

/-- A hex digit in either case (the character class of `/^[a-f0-9]{64}$/i`). -/
def isHexCharCI (c : Char) : Bool :=
  ('0' ≤ c && c ≤ '9') || ('a' ≤ c && c ≤ 'f') || ('A' ≤ c && c ≤ 'F')

/-- `/^[a-f0-9]{64}$/i.test s`: exactly 64 hex characters, case-insensitive. -/
def isHex64CI (s : String) : Bool :=
  s.data.length = 64 && s.data.all isHexCharCI

/-- Does the first list start with the second? -/
def listStartsWith : List Char → List Char → Bool
  | _, [] => true
  | [], _ :: _ => false
  | a :: as, b :: bs => a = b && listStartsWith as bs

/-- Does `pat` occur as a contiguous run inside `s`? -/
def listOccurs (s pat : List Char) : Bool :=
  match s with
  | [] => pat.isEmpty
  | _ :: rest => listStartsWith s pat || listOccurs rest pat

/-- `s.startsWith(pat)` of JS strings. -/
def strStartsWith (s pat : String) : Bool :=
  listStartsWith s.data pat.data

/-- `s.includes(pat)` of JS strings (used by the catch handlers, which
route on the error message text). -/
def strContains (s pat : String) : Bool :=
  listOccurs s.data pat.data

/-- `s.trim()` of JS strings: strip whitespace from both ends. -/
def strTrim (s : String) : String :=
  String.mk
    (((s.data.dropWhile Char.isWhitespace).reverse.dropWhile Char.isWhitespace).reverse)

/-- A verification method of a resolved DID document
(`didDocument.verificationMethod[i]`). -/
structure VerificationMethod where
  type : String
  publicKeyMultibase : Option String
deriving Repr, DecidableEq

/-- A resolved DID document, as far as `verifySignature` inspects it. -/
structure DidDocument where
  verificationMethod : List VerificationMethod
deriving Repr, DecidableEq

/-- JS truthiness of `method.publicKeyMultibase` (absent or `""` is falsy). -/
def multibaseTruthy : Option String → Bool
  | some s => s ≠ ""
  | none => false

/-- The `for (const method of ...)` loop of `verifySignature`: the first
method whose `type` is `Ed25519VerificationKey2020` with a truthy
`publicKeyMultibase`. -/
def findEd25519 (ms : List VerificationMethod) : Option String :=
  match ms.find? (fun m =>
      m.type = "Ed25519VerificationKey2020" && multibaseTruthy m.publicKeyMultibase) with
  | some m => m.publicKeyMultibase
  | none => none

/-- Oracles for the external cryptography/identity collaborators consumed by
`did.service.ts`:
* `resolveDID` — the Hiero resolver (`.error` = the call threw, `.ok none` =
  it returned a falsy document);
* `decodeMultibase` — `KeysUtility.fromMultibase(...).toPublicKey()`; the
  decoded public key is abstracted to a `Nat` handle;
* `pkVerify` — `publicKey.verify(hashBytes, signatureBytes)`. -/
structure CryptoEnv where
  resolveDID : String → Except String (Option DidDocument)
  decodeMultibase : String → Except String Nat
  pkVerify : Nat → List Nat → List Nat → Bool

/-- One externally visible call made by the workflows. -/
inductive Effect
  | resolveCall (did : String)
  | orgLookup (did : String)
  | dedupCheck (hash : String)
  | hcsSubmit (hash did signature : String)
  | indexInsert (hash : String)
  | mirrorQuery (hash : String)
  | registryCall (did : String)
deriving Repr, DecidableEq

/-- `verifySignature` of `src/server/src/services/did.service.ts`
(lines 76–207), instrumented with the trace of network calls it makes.
Every failure path returns `false`; the TypeScript try/catch that guarantees
this is reflected in the `Except`-valued oracles being matched, never
propagated. -/
def verifySignatureRun (env : CryptoEnv) (did documentHashHex signatureHex : String) :
    Bool × List Effect :=
  if did = "" ∨ documentHashHex = "" ∨ signatureHex = "" then (false, [])
  else if ¬ (strStartsWith did "did:hedera:" = true) then (false, [])
  else
    let effs := [Effect.resolveCall did]
    match env.resolveDID did with
    | .error _ => (false, effs)
    | .ok none => (false, effs)
    | .ok (some doc) =>
      if doc.verificationMethod = [] then (false, effs)
      else
        match findEd25519 doc.verificationMethod with
        | none => (false, effs)
        | some pkStr =>
          match env.decodeMultibase pkStr with
          | .error _ => (false, effs)
          | .ok pk =>
            let hashBytes := hexDecode documentHashHex.data
            let sigBytes := hexDecode signatureHex.data
            if hashBytes.length ≠ 32 then (false, effs)
            else if sigBytes.length ≠ 64 then (false, effs)
            else (env.pkVerify pk hashBytes sigBytes, effs)

/-- The boolean result of `verifySignature`, as its callers see it. -/
def verifySignature (env : CryptoEnv) (did documentHashHex signatureHex : String) : Bool :=
  (verifySignatureRun env did documentHashHex signatureHex).1

/-- A row of the `documentProof` table (the Proof Index), as created by
`createDocumentProof` in `document.service.ts`. -/
structure ProofRecord where
  documentHash : String
  hederaTransactionId : String
  consensusTimestamp : String
  issuerDid : String
  createdAt : String
deriving Repr, DecidableEq

/-- A row of the `organization` table, as selected by the anchor controller
and the auth middleware (`id`, `name`, `did`; the migration
`make_did_required` makes `did` a required column, so it is a `String`). -/
structure Org where
  id : String
  name : String
  did : String
deriving Repr, DecidableEq

/-- The parsed anchor request body (`{documentHash, did, signature}`).
Missing fields are modelled as `""`, which is exactly what the JS
truthiness checks of the controller test for. -/
structure AnchorReq where
  documentHash : String
  did : String
  signature : String
deriving Repr, DecidableEq

/-- The `proof` object of an anchor response (`anchoredAt` is present only
in the 409 conflict response). -/
structure ProofOut where
  documentHash : String
  hederaTransactionId : String
  consensusTimestamp : String
  issuerDid : String
  anchoredAt : Option String
deriving Repr, DecidableEq

/-- An anchor response: HTTP status, `error`/`message` fields and the
optional `proof` object. -/
structure AnchorResp where
  status : Nat
  error : Option String
  message : String
  proof : Option ProofOut
deriving Repr, DecidableEq

/-- 400 response of the anchor controller. -/
def anchorBadRequest (msg : String) : AnchorResp :=
  { status := 400, error := some "Bad Request", message := msg, proof := none }

/-- 403 response of the anchor controller. -/
def anchorForbidden (msg : String) : AnchorResp :=
  { status := 403, error := some "Forbidden", message := msg, proof := none }

/-- 401 response of the anchor controller when `req.organization` is
absent. -/
def anchorNoOrgResp : AnchorResp :=
  { status := 401, error := some "Unauthorized",
    message := "Organization information not found. Invalid or missing API key.",
    proof := none }

/-- 403 response of the anchor controller when signature verification
fails. -/
def anchorSigFailResp : AnchorResp :=
  { status := 403, error := some "Forbidden",
    message := "Signature verification failed. The signature is not valid for this document hash and DID. Only the private key holder can anchor documents.",
    proof := none }

/-- 409 response of the anchor controller: the existing proof with a
conflict signal. -/
def anchorConflictResp (p : ProofRecord) : AnchorResp :=
  { status := 409, error := some "Conflict",
    message := "This document has already been anchored.",
    proof := some { documentHash := p.documentHash,
                    hederaTransactionId := p.hederaTransactionId,
                    consensusTimestamp := p.consensusTimestamp,
                    issuerDid := p.issuerDid,
                    anchoredAt := some p.createdAt } }

/-- 201 response of the anchor controller: the freshly stored proof. -/
def anchorCreatedResp (r : ProofRecord) : AnchorResp :=
  { status := 201, error := none,
    message := "Document anchored successfully.",
    proof := some { documentHash := r.documentHash,
                    hederaTransactionId := r.hederaTransactionId,
                    consensusTimestamp := r.consensusTimestamp,
                    issuerDid := r.issuerDid,
                    anchoredAt := none } }

/-- `findProofByHash` of `document.service.ts`:
`prisma.documentProof.findUnique({ where: { documentHash } })`. -/
def findProofByHash (db : List ProofRecord) (documentHash : String) : Option ProofRecord :=
  db.find? (fun p => p.documentHash = documentHash)

/-- `getProofByHash` of `document.service.ts` (same query as
`findProofByHash`; the source exports both names). -/
def getProofByHash (db : List ProofRecord) (documentHash : String) : Option ProofRecord :=
  db.find? (fun p => p.documentHash = documentHash)

/-- The message Prisma raises when the unique constraint on `documentHash`
rejects an insert (error P2002). -/
def prismaUniqueViolationMsg : String :=
  "Unique constraint failed on the fields: (documentHash)"

/-- `createDocumentProof` of `document.service.ts`:
`prisma.documentProof.create(...)`.  The insert is rejected by the unique
constraint on `documentHash` when the row is already present, or when a
concurrent writer won the check-then-insert race (`raceLost`). -/
def createDocumentProof (raceLost : Bool) (db : List ProofRecord)
    (documentHash hederaTransactionId consensusTimestamp issuerDid now : String) :
    Except String (ProofRecord × List ProofRecord) :=
  if raceLost ∨ (findProofByHash db documentHash).isSome then
    .error prismaUniqueViolationMsg
  else
    let r : ProofRecord :=
      { documentHash := documentHash, hederaTransactionId := hederaTransactionId,
        consensusTimestamp := consensusTimestamp, issuerDid := issuerDid, createdAt := now }
    .ok (r, db ++ [r])

/-- Raw outcome of executing a `TopicMessageSubmitTransaction`
(receipt status code, transaction id, record timestamp). -/
structure HcsRaw where
  statusCode : Nat
  transactionId : String
  consensusTimestamp : Option String
deriving Repr, DecidableEq

/-- `Status.Success._code` in the Hedera SDK. -/
def hederaSuccessCode : Nat := 22

/-- Result of `submitHashToHCS` (`hedera.service.ts`). -/
structure SubmitResult where
  transactionId : String
  consensusTimestamp : String
deriving Repr, DecidableEq

/-- `submitHashToHCS` of `src/server/src/services/hedera.service.ts`
(lines 62–110).  The submitted JSON string
`{"hash": ..., "did": ..., "signature": ...}` is represented by its three
fields (the encoding of this fixed shape is injective).  `exec` is the
network execution of the transaction; every error is re-thrown wrapped in
the `Failed to submit hash to Hedera Consensus Service:` prefix, and a
non-success receipt status or a missing consensus timestamp is also an
error. -/
def submitHashToHCS (exec : String → String → String → Except String HcsRaw)
    (hash did signature : String) : Except String SubmitResult :=
  match exec hash did signature with
  | .error e => .error ("Failed to submit hash to Hedera Consensus Service: " ++ e)
  | .ok r =>
    if r.statusCode ≠ hederaSuccessCode then
      .error ("Failed to submit hash to Hedera Consensus Service: Transaction failed: "
        ++ toString r.statusCode)
    else
      match r.consensusTimestamp with
      | none =>
        .error "Failed to submit hash to Hedera Consensus Service: No consensus timestamp received from Hedera"
      | some ts => .ok { transactionId := r.transactionId, consensusTimestamp := ts }

/-- The catch handler at the end of `anchorDocument`: routes on the text of
the caught error message. -/
def anchorCatch (e : String) : AnchorResp :=
  if strContains e "signature" then
    { status := 403, error := some "Forbidden",
      message := "Signature verification failed.", proof := none }
  else if strContains e "Hedera" then
    { status := 503, error := some "Service Unavailable",
      message := "Failed to anchor document to Hedera network. Please try again later.",
      proof := none }
  else
    { status := 500, error := some "Internal Server Error",
      message := "An error occurred while anchoring the document", proof := none }

/-- Environment of one anchor run: the crypto collaborators, the
`organization` table, the HCS execution oracle, whether a concurrent
writer wins the check-then-insert race, and the row-creation timestamp. -/
structure AnchorEnv where
  crypto : CryptoEnv
  orgs : List Org
  hcsExec : String → String → String → Except String HcsRaw
  raceLost : Bool
  now : String

/-- `anchorDocument` of
`src/server/src/api/controllers/anchor.controller.ts` (lines 49–260),
one run against Proof Index state `db`, returning the response, the new
Proof Index state and the trace of external calls.

The body-shape checks are modelled over `String` (a missing field is `""`;
the `typeof` re-checks of the source cannot fail in this representation).
`auth` is `req.organization` as set by the API-key middleware. -/
def anchorDocument (env : AnchorEnv) (req : AnchorReq) (auth : Option Org)
    (db : List ProofRecord) : AnchorResp × List ProofRecord × List Effect :=
  if req.documentHash = "" ∨ req.did = "" ∨ req.signature = "" then
    (anchorBadRequest "Missing required fields. Please provide: documentHash, did, and signature.",
      db, [])
  else if ¬ (strStartsWith req.did "did:hedera:" = true) then
    (anchorBadRequest "did must be a valid Hedera DID (starting with did:hedera:)", db, [])
  else
    match auth with
    | none => (anchorNoOrgResp, db, [])
    | some authenticatedOrg =>
      let sigRun := verifySignatureRun env.crypto req.did req.documentHash req.signature
      if sigRun.1 = false then
        (anchorSigFailResp, db, sigRun.2)
      else
        let effs1 := sigRun.2 ++ [Effect.orgLookup req.did]
        match env.orgs.find? (fun o => o.did = req.did) with
        | none =>
          (anchorForbidden "The provided DID is not registered in our system. Please complete signup first.",
            db, effs1)
        | some fullOrg =>
          if fullOrg.did = "" then
            (anchorForbidden "The provided DID is not registered in our system. Please complete signup first.",
              db, effs1)
          else if fullOrg.id ≠ authenticatedOrg.id then
            (anchorForbidden "The provided DID does not belong to your organization. You can only anchor documents with your organization DID.",
              db, effs1)
          else if authenticatedOrg.did ≠ req.did then
            (anchorForbidden "The provided DID does not match your authenticated organization DID.",
              db, effs1)
          else
            let effs2 := effs1 ++ [Effect.dedupCheck req.documentHash]
            match findProofByHash db req.documentHash with
            | some existingProof =>
              (anchorConflictResp existingProof, db, effs2)
            | none =>
              let effs3 := effs2 ++ [Effect.hcsSubmit req.documentHash req.did req.signature]
              match submitHashToHCS env.hcsExec req.documentHash req.did req.signature with
              | .error e => (anchorCatch e, db, effs3)
              | .ok hederaResult =>
                let effs4 := effs3 ++ [Effect.indexInsert req.documentHash]
                match createDocumentProof env.raceLost db req.documentHash
                    hederaResult.transactionId hederaResult.consensusTimestamp
                    req.did env.now with
                | .error e => (anchorCatch e, db, effs4)
                | .ok (proofRec, db2) =>
                  (anchorCreatedResp proofRec, db2, effs4)

/-- The wire `ProofMessage` recovered from a mirror-node HCS message:
the parse of `{"hash": ..., "did": ..., "signature": ...}`. -/
structure ProofMsg where
  hash : String
  did : String
  signature : String
deriving Repr, DecidableEq

/-- `findMessageByHash` of `src/server/src/services/mirror.service.ts`
(lines 45–104).  The fetched recent window of topic messages is the
`mirror` oracle: `.error` covers every throw inside the service
(missing topic id, non-ok response, network failure), re-thrown with the
`Failed to query mirror node:` prefix; `.ok msgs` is the decoded page,
where an entry `none` is a message whose base64/JSON parse fails (the
source skips those).  The scan returns the first message whose `hash`
field equals the searched hash. -/
def findMessageByHash (mirror : Except String (List (Option ProofMsg)))
    (hash : String) : Except String (Option ProofMsg) :=
  match mirror with
  | .error e => .error ("Failed to query mirror node: " ++ e)
  | .ok msgs =>
    .ok (msgs.findSome? (fun m? =>
      match m? with
      | some m => if m.hash = hash then some m else none
      | none => none))

/-- JS truthiness of `config.hedera.registryContractId`
(`undefined` or `""` is falsy). -/
def registryTruthy : Option String → Bool
  | some s => s ≠ ""
  | none => false

/-- `isTrustedIssuer` of the registry service (`src/unnamed/part_003`
lines 61–109): returns `false` when no registry contract is configured,
otherwise performs the `checkTrusted(string)` contract call (`registry`
oracle), re-throwing any failure wrapped in the
`Failed to check trusted issuer status:` prefix. -/
def isTrustedIssuer (registryContractId : Option String)
    (registry : String → Except String Bool) (did : String) : Except String Bool :=
  if registryTruthy registryContractId = false then .ok false
  else
    match registry did with
    | .error e => .error ("Failed to check trusted issuer status: " ++ e)
    | .ok b => .ok b

/-- The `proof` object of a verify response. -/
structure VProof where
  hash : String
  did : String
  signature : String
  consensusTimestamp : String
  organizationName : Option String
deriving Repr, DecidableEq

/-- A verify response: HTTP status, the body `status` field (`vstatus`,
`VERIFIED_ON_CHAIN` / `NOT_VERIFIED`, absent on error responses), the
`error`/`message` fields, the optional `proof` object and the optional
`isTrustedIssuer` flag. -/
structure VerifyResp where
  status : Nat
  vstatus : Option String
  error : Option String
  message : String
  proof : Option VProof
  isTrustedIssuer : Option Bool
deriving Repr, DecidableEq

/-- The 200 `VERIFIED_ON_CHAIN` verify response: proof details from the
index row, the recovered signature, and the trust flag. -/
def verifiedResp (p : ProofRecord) (sigStr : String) (orgName : Option String)
    (isTrusted : Bool) : VerifyResp :=
  { status := 200, vstatus := some "VERIFIED_ON_CHAIN", error := none,
    message := "This document is authentic and was verified on the Hedera network.",
    proof := some { hash := p.documentHash, did := p.issuerDid,
                    signature := sigStr,
                    consensusTimestamp := p.consensusTimestamp,
                    organizationName := orgName },
    isTrustedIssuer := some isTrusted }

/-- A success-shaped `NOT_VERIFIED` verify response. -/
def notVerifiedResp (msg : String) : VerifyResp :=
  { status := 200, vstatus := some "NOT_VERIFIED", error := none,
    message := msg, proof := none, isTrustedIssuer := none }

/-- 400 response of the verify controller. -/
def verifyBadRequest (msg : String) : VerifyResp :=
  { status := 400, vstatus := none, error := some "Bad Request",
    message := msg, proof := none, isTrustedIssuer := none }

/-- The catch handler at the end of `verifyDocument`: 503 when the message
mentions the mirror node, 500 otherwise. -/
def verifyCatch (e : String) : VerifyResp :=
  if strContains e "mirror node" then
    { status := 503, vstatus := none, error := some "Service Unavailable",
      message := "Failed to query Hedera Mirror Node. Please try again later.",
      proof := none, isTrustedIssuer := none }
  else
    { status := 500, vstatus := none, error := some "Internal Server Error",
      message := "An error occurred while verifying the document",
      proof := none, isTrustedIssuer := none }

/-- Environment of one verify run: the crypto collaborators, the
`organization` table, the mirror window, and the registry configuration
and contract-call oracle. -/
structure VerifyEnv where
  crypto : CryptoEnv
  orgs : List Org
  mirror : Except String (List (Option ProofMsg))
  registryContractId : Option String
  registry : String → Except String Bool

/-- `verifyDocument` of
`src/server/src/api/controllers/verify.controller.ts` (lines 227–404,
the hash-based variant), one run against Proof Index state `db`.
`body` is `req.body.documentHash` (`none` = field absent).

The re-parse of `hcsMessage.message` in the controller deterministically
succeeds whenever `findMessageByHash` returned a message, because that scan
only returns entries it already parsed; the 500 parse-error branch of the
source is therefore unreachable in this embedding.  The organization
lookup and the registry check never change the outcome: their errors are
swallowed (`isTrusted` degrades to `false`). -/
def verifyDocument (env : VerifyEnv) (db : List ProofRecord)
    (body : Option String) : VerifyResp :=
  match body with
  | none =>
    verifyBadRequest "Missing or invalid documentHash. Please provide a SHA-256 hash in the request body."
  | some raw =>
    if raw = "" then
      verifyBadRequest "Missing or invalid documentHash. Please provide a SHA-256 hash in the request body."
    else
      let documentHash := strTrim raw
      if isHex64CI documentHash = false then
        verifyBadRequest "Invalid hash format. Expected a 64-character hexadecimal SHA-256 hash."
      else
        match getProofByHash db documentHash with
        | none =>
          notVerifiedResp "This document has not been anchored and cannot be verified."
        | some proof =>
          match findMessageByHash env.mirror documentHash with
          | .error e => verifyCatch e
          | .ok none =>
            notVerifiedResp "Proof found but could not be verified on-chain."
          | .ok (some messageContent) =>
            if verifySignature env.crypto messageContent.did messageContent.hash
                messageContent.signature = false then
              notVerifiedResp "Signature verification failed. Document cannot be verified."
            else
              let organizationName :=
                (env.orgs.find? (fun o => o.did = proof.issuerDid)).map Org.name
              let isTrusted :=
                if registryTruthy env.registryContractId then
                  match isTrustedIssuer env.registryContractId env.registry
                      messageContent.did with
                  | .error _ => false
                  | .ok b => b
                else false
              verifiedResp proof messageContent.signature organizationName isTrusted

/-! ### Concrete fixtures used by witnesses and counterexamples -/

/-- A DID document with one Ed25519 verification method. -/
def fixDoc : DidDocument :=
  { verificationMethod :=
      [{ type := "Ed25519VerificationKey2020", publicKeyMultibase := some "zFixKey" }] }

/-- A crypto environment in which resolution, decoding and verification
all succeed. -/
def cryptoOk : CryptoEnv :=
  { resolveDID := fun _ => .ok (some fixDoc),
    decodeMultibase := fun _ => .ok 1,
    pkVerify := fun _ _ _ => true }

/-- A crypto environment in which DID resolution throws. -/
def cryptoResolveFail : CryptoEnv :=
  { resolveDID := fun _ => .error "resolver unreachable",
    decodeMultibase := fun _ => .ok 1,
    pkVerify := fun _ _ _ => true }

/-- A crypto environment in which the primitive rejects every signature. -/
def cryptoReject : CryptoEnv :=
  { resolveDID := fun _ => .ok (some fixDoc),
    decodeMultibase := fun _ => .ok 1,
    pkVerify := fun _ _ _ => false }

/-- A 64-character lowercase hex hash. -/
def fixHash : String := String.mk (List.replicate 64 'a')

/-- The same hash written in uppercase. -/
def fixHashUpper : String := String.mk (List.replicate 64 'A')

/-- A 128-character hex signature (64 bytes decoded). -/
def fixSig : String := String.mk (List.replicate 128 'b')

/-- The fixture DID. -/
def fixDid : String := "did:hedera:testnet:zFix_0.0.1"

/-- The fixture organization owning `fixDid`. -/
def fixOrg : Org := { id := "org-1", name := "Fix Org", did := fixDid }

/-- A well-formed anchor request from the fixture organization. -/
def fixReq : AnchorReq := { documentHash := fixHash, did := fixDid, signature := fixSig }

/-- An HCS execution oracle that succeeds. -/
def hcsOk : String → String → String → Except String HcsRaw :=
  fun _ _ _ => .ok { statusCode := 22, transactionId := "0.0.1@1.2",
                     consensusTimestamp := some "1700000000.000000001" }

/-- An HCS execution oracle that throws. -/
def hcsDown : String → String → String → Except String HcsRaw :=
  fun _ _ _ => .error "timeout"

/-- An anchor environment where every collaborator behaves. -/
def envOk : AnchorEnv :=
  { crypto := cryptoOk, orgs := [fixOrg], hcsExec := hcsOk,
    raceLost := false, now := "2026-01-01T00:00:00Z" }

example : verifySignature cryptoOk fixDid fixHash fixSig = true := by decide
example : verifySignature cryptoResolveFail fixDid fixHash fixSig = false := by decide
example : verifySignature cryptoOk fixDid "abc" fixSig = false := by decide
example : (anchorDocument envOk fixReq (some fixOrg) []).1.status = 201 := by decide

/-! ### C4 — the signature verifier is total and maps every failure to `false` -/

/-- The failure cases enumerated by the failure policy of the signature
verifier: identity resolution fails (throws or yields no document), no
matching verification method is found, the encoded public key cannot be
decoded, the decoded hash is not exactly 32 bytes, or the decoded
signature is not exactly 64 bytes. -/
def VerifierFailureCase (env : CryptoEnv) (did h s : String) : Prop :=
  (∀ doc, env.resolveDID did ≠ .ok (some doc)) ∨
  (∃ doc, env.resolveDID did = .ok (some doc) ∧
    findEd25519 doc.verificationMethod = none) ∨
  (∃ doc pk, env.resolveDID did = .ok (some doc) ∧
    findEd25519 doc.verificationMethod = some pk ∧
    ∀ k, env.decodeMultibase pk ≠ .ok k) ∨
  (hexDecode h.data).length ≠ 32 ∨
  (hexDecode s.data).length ≠ 64

/-- C4: the signature verifier is total — it is a function into `Bool`
for every input triple and every behavior of the resolution/decoding
oracles (exceptions of the collaborators appear only as `Except` values it
matches on, never propagates) — and it returns `false` in every
enumerated failure case. -/
theorem verifySignature_failure_to_false (env : CryptoEnv) (did h s : String)
    (hfail : VerifierFailureCase env did h s) :
    verifySignature env did h s = false := by
  simp only [verifySignature, verifySignatureRun]
  repeat' split
  all_goals try rfl
  all_goals (
    exfalso
    rcases hfail with h1 | ⟨doc', hd, hf⟩ | ⟨doc', pk', hd, hf, hdec'⟩ | h4 | h5 <;>
      simp_all)

/-- Witness for C4: with a resolver that throws, the verifier returns
`false` instead of propagating the exception. -/
theorem verifySignature_failure_to_false_witness :
    VerifierFailureCase cryptoResolveFail fixDid fixHash fixSig ∧
    verifySignature cryptoResolveFail fixDid fixHash fixSig = false :=
  have hc : VerifierFailureCase cryptoResolveFail fixDid fixHash fixSig :=
    Or.inl (fun _ h => Except.noConfusion h)
  ⟨hc, verifySignature_failure_to_false cryptoResolveFail fixDid fixHash fixSig hc⟩

/-! ### Helper lemmas about the verifier trace -/

/-- The trace of the signature verifier is empty when the shape checks
fail and a single resolution call otherwise. -/
theorem verifySignatureRun_trace_cases (env : CryptoEnv) (did h s : String) :
    (verifySignatureRun env did h s).2 = [] ∨
    (verifySignatureRun env did h s).2 = [Effect.resolveCall did] := by
  simp only [verifySignatureRun]
  repeat' split
  all_goals simp

/-- The only external calls the signature verifier makes are DID
resolution calls. -/
theorem verifySignatureRun_effects (env : CryptoEnv) (did h s : String) :
    ∀ e ∈ (verifySignatureRun env did h s).2, ∃ d, e = Effect.resolveCall d := by
  intro e he
  rcases verifySignatureRun_trace_cases env did h s with hc | hc
  · rw [hc] at he; simp at he
  · rw [hc] at he; simp at he; exact ⟨did, he⟩

/-- Once the shape checks pass, the verifier makes exactly one live
resolution call, whatever happens afterwards. -/
theorem verifySignatureRun_trace (env : CryptoEnv) (did h s : String)
    (hne : ¬ (did = "" ∨ h = "" ∨ s = ""))
    (hpre : strStartsWith did "did:hedera:" = true) :
    (verifySignatureRun env did h s).2 = [Effect.resolveCall did] := by
  simp only [verifySignatureRun]
  rw [if_neg hne, if_neg (by simp [hpre])]
  repeat' split
  all_goals rfl

/-- `find?` skips a prefix in which nothing matches. -/
theorem find?_append_left_none {α : Type} (p : α → Bool) (l1 l2 : List α)
    (hnone : l1.find? p = none) : (l1 ++ l2).find? p = l2.find? p := by
  induction l1 with
  | nil => rfl
  | cons a t ih =>
    cases hpa : p a with
    | true => rw [List.find?_cons_of_pos _ hpa] at hnone; cases hnone
    | false =>
      rw [List.cons_append, List.find?_cons_of_neg _ (by simp [hpa])]
      rw [List.find?_cons_of_neg _ (by simp [hpa])] at hnone
      exact ih hnone

/-- The signature verifier never emits an index-insert effect. -/
theorem indexInsert_not_in_sig_effects (env : CryptoEnv) (did h s x : String) :
    Effect.indexInsert x ∉ (verifySignatureRun env did h s).2 := by
  intro hmem
  obtain ⟨d, hd⟩ := verifySignatureRun_effects env did h s _ hmem
  simp at hd

/-- Shape of a successful Proof Index insert: the stored row carries the
arguments verbatim and is appended to the table. -/
theorem createDocumentProof_ok (raceLost : Bool) (db : List ProofRecord)
    (h tx ts did now : String) (r : ProofRecord) (db2 : List ProofRecord)
    (hok : createDocumentProof raceLost db h tx ts did now = .ok (r, db2)) :
    r = { documentHash := h, hederaTransactionId := tx, consensusTimestamp := ts,
          issuerDid := did, createdAt := now } ∧ db2 = db ++ [r] := by
  unfold createDocumentProof at hok
  split at hok
  · cases hok
  · simp only [Except.ok.injEq, Prod.mk.injEq] at hok
    obtain ⟨h1, h2⟩ := hok
    subst h1; subst h2
    exact ⟨rfl, rfl⟩

/-- A hash whose hex decoding is not 32 bytes long can never verify. -/
theorem verifySignature_false_of_hashlen (env : CryptoEnv) (did h s : String)
    (h32 : (hexDecode h.data).length ≠ 32) :
    verifySignature env did h s = false := by
  simp only [verifySignature, verifySignatureRun]
  repeat' split
  all_goals rfl

example :
    (anchorDocument envOk fixReq (some fixOrg) []).2.1 =
      [{ documentHash := fixHash, hederaTransactionId := "0.0.1@1.2",
         consensusTimestamp := "1700000000.000000001", issuerDid := fixDid,
         createdAt := "2026-01-01T00:00:00Z" }] := by decide

/-- An anchor environment whose crypto primitive rejects the signature. -/
def envReject : AnchorEnv :=
  { crypto := cryptoReject, orgs := [fixOrg], hcsExec := hcsOk,
    raceLost := false, now := "2026-01-01T00:00:00Z" }

/-- The Proof Index row produced by the fixture anchor run. -/
def fixRec : ProofRecord :=
  { documentHash := fixHash, hederaTransactionId := "0.0.1@1.2",
    consensusTimestamp := "1700000000.000000001", issuerDid := fixDid,
    createdAt := "2026-01-01T00:00:00Z" }

/-! ### C1 — invalid signature: 403 and no further check or mutation -/

/-- C1: when the signature does not verify against the live-resolved key,
the anchor workflow fails with 403 (authorization error), leaves the Proof
Index unchanged, and performs no ownership lookup, no duplicate check, no
consensus submission and no index write — the only external call in the
trace is the DID resolution made by the verifier itself. -/
theorem anchor_sigfail_no_check_no_mutation (env : AnchorEnv) (req : AnchorReq)
    (org : Org) (db : List ProofRecord)
    (resp : AnchorResp) (db2 : List ProofRecord) (effs : List Effect)
    (hshape : ¬ (req.documentHash = "" ∨ req.did = "" ∨ req.signature = ""))
    (hpre : strStartsWith req.did "did:hedera:" = true)
    (hsig : verifySignature env.crypto req.did req.documentHash req.signature = false)
    (hrun : anchorDocument env req (some org) db = (resp, db2, effs)) :
    resp.status = 403 ∧ resp.error = some "Forbidden" ∧ db2 = db ∧
    (∀ d, Effect.orgLookup d ∉ effs) ∧
    (∀ h, Effect.dedupCheck h ∉ effs) ∧
    (∀ h d s, Effect.hcsSubmit h d s ∉ effs) ∧
    (∀ h, Effect.indexInsert h ∉ effs) := by
  have hsig' : (verifySignatureRun env.crypto req.did req.documentHash req.signature).1
      = false := hsig
  have hcomp : anchorDocument env req (some org) db =
      (anchorSigFailResp, db,
        (verifySignatureRun env.crypto req.did req.documentHash req.signature).2) := by
    unfold anchorDocument
    rw [if_neg hshape, if_neg (by simp [hpre])]
    simp [hsig']
  rw [hcomp] at hrun
  simp only [Prod.mk.injEq] at hrun
  obtain ⟨hresp, hdb, heffs⟩ := hrun
  subst hresp; subst hdb; subst heffs
  refine ⟨rfl, rfl, rfl, ?_, ?_, ?_, ?_⟩ <;>
    (intros
     intro hmem
     obtain ⟨d', hd'⟩ :=
       verifySignatureRun_effects env.crypto req.did req.documentHash req.signature _ hmem
     simp at hd')

/-- Witness for C1: the crypto primitive rejects the fixture signature, and
the run returns 403, changes nothing and makes no further call. -/
theorem anchor_sigfail_no_check_no_mutation_witness :
    (anchorDocument envReject fixReq (some fixOrg) []).1.status = 403 ∧
    (anchorDocument envReject fixReq (some fixOrg) []).1.error = some "Forbidden" ∧
    (anchorDocument envReject fixReq (some fixOrg) []).2.1 = [] ∧
    (∀ d, Effect.orgLookup d ∉ (anchorDocument envReject fixReq (some fixOrg) []).2.2) ∧
    (∀ h, Effect.dedupCheck h ∉ (anchorDocument envReject fixReq (some fixOrg) []).2.2) ∧
    (∀ h d s, Effect.hcsSubmit h d s ∉ (anchorDocument envReject fixReq (some fixOrg) []).2.2) ∧
    (∀ h, Effect.indexInsert h ∉ (anchorDocument envReject fixReq (some fixOrg) []).2.2) :=
  anchor_sigfail_no_check_no_mutation envReject fixReq fixOrg []
    (anchorDocument envReject fixReq (some fixOrg) []).1
    (anchorDocument envReject fixReq (some fixOrg) []).2.1
    (anchorDocument envReject fixReq (some fixOrg) []).2.2
    (by decide) (by decide) (by decide) rfl

/-- The anchor catch handler returns 403, 503 or 500 — never 400. -/
theorem anchorCatch_status (e : String) :
    (anchorCatch e).status = 403 ∨ (anchorCatch e).status = 503 ∨
    (anchorCatch e).status = 500 := by
  unfold anchorCatch
  repeat' split
  all_goals simp

/-- The anchor catch handler never answers 400. -/
theorem anchorCatch_ne_400 (e : String) : (anchorCatch e).status ≠ 400 := by
  rcases anchorCatch_status e with h0 | h0 | h0 <;> simp [h0]

/-! ### C5 — malformed contentHash is NOT rejected by validation -/

/-- An anchor request whose hash is 3 characters, not 64. -/
def reqBadHash : AnchorReq :=
  { documentHash := "abc", did := fixDid, signature := fixSig }

/-- C5 counterexample: a contentHash that is not 64 hex characters is not
rejected with a 400 validation error before any network call — the run
makes the DID-resolution network call and ends in 403, refuting the claim
at this input. -/
theorem anchor_malformed_hash_counterexample :
    isHex64CI reqBadHash.documentHash = false ∧
    ¬ (anchorDocument envOk reqBadHash (some fixOrg) []).1.status = 400 ∧
    (anchorDocument envOk reqBadHash (some fixOrg) []).1.status = 403 ∧
    Effect.resolveCall fixDid ∈ (anchorDocument envOk reqBadHash (some fixOrg) []).2.2 := by
  decide

/-- C5 (amended): the anchor controller validates only that the fields are
non-empty strings with the DID prefix — there is no 64-hex-character check.
A request with a malformed hash that passes those checks is never answered
with 400; it proceeds to signature verification, which performs a live
DID-resolution network call, and whenever the decoded hash is not 32 bytes
the request is rejected 403 (authorization), not 400 (validation). -/
theorem anchor_malformed_hash_not_validated (env : AnchorEnv) (req : AnchorReq)
    (org : Org) (db : List ProofRecord)
    (resp : AnchorResp) (db2 : List ProofRecord) (effs : List Effect)
    (hdh : req.documentHash ≠ "")
    (hnothex : isHex64CI req.documentHash = false)
    (hpre : strStartsWith req.did "did:hedera:" = true)
    (hsigne : req.signature ≠ "")
    (hrun : anchorDocument env req (some org) db = (resp, db2, effs)) :
    resp.status ≠ 400 ∧
    Effect.resolveCall req.did ∈ effs ∧
    ((hexDecode req.documentHash.data).length ≠ 32 → resp.status = 403) := by
  have hdid : req.did ≠ "" := by
    intro h0; rw [h0] at hpre
    simp [strStartsWith, listStartsWith] at hpre
  have hne : ¬ (req.documentHash = "" ∨ req.did = "" ∨ req.signature = "") := by
    rintro (h0 | h0 | h0)
    · exact hdh h0
    · exact hdid h0
    · exact hsigne h0
  have htr := verifySignatureRun_trace env.crypto req.did req.documentHash
    req.signature (by rintro (h0 | h0 | h0); exacts [hdid h0, hdh h0, hsigne h0]) hpre
  by_cases hsv : (verifySignatureRun env.crypto req.did req.documentHash req.signature).1
      = false
  · have hcomp : anchorDocument env req (some org) db = (anchorSigFailResp, db,
        (verifySignatureRun env.crypto req.did req.documentHash req.signature).2) := by
      unfold anchorDocument
      rw [if_neg hne, if_neg (by simp [hpre])]
      simp [hsv]
    rw [hcomp] at hrun
    simp only [Prod.mk.injEq] at hrun
    obtain ⟨hre, hdb, hef⟩ := hrun
    subst hre; subst hdb; subst hef
    exact ⟨by simp [anchorSigFailResp], by simp [htr], fun _ => rfl⟩
  · have hs32 : ¬ ((hexDecode req.documentHash.data).length ≠ 32) := fun h32 =>
      hsv (verifySignature_false_of_hashlen env.crypto _ _ _ h32)
    unfold anchorDocument at hrun
    rw [if_neg hne, if_neg (by simp [hpre])] at hrun
    simp only [if_neg hsv] at hrun
    repeat' split at hrun
    all_goals (
      simp only [Prod.mk.injEq] at hrun
      obtain ⟨hre, hdb, hef⟩ := hrun
      subst hre; subst hdb; subst hef
      refine ⟨?_, by simp [htr], fun h32 => absurd h32 hs32⟩)
    all_goals first
      | exact anchorCatch_ne_400 _
      | simp [anchorForbidden, anchorConflictResp, anchorCreatedResp]

/-- Witness for the amended C5: the 3-character hash run resolves the DID
and ends 403, never 400. -/
theorem anchor_malformed_hash_not_validated_witness :
    ¬ (anchorDocument envOk reqBadHash (some fixOrg) []).1.status = 400 ∧
    Effect.resolveCall reqBadHash.did ∈ (anchorDocument envOk reqBadHash (some fixOrg) []).2.2 ∧
    ((hexDecode reqBadHash.documentHash.data).length ≠ 32 →
      (anchorDocument envOk reqBadHash (some fixOrg) []).1.status = 403) :=
  anchor_malformed_hash_not_validated envOk reqBadHash fixOrg [] _ _ _
    (by decide) (by decide) (by decide) (by decide) rfl

/-! ### C7 — losing the check-then-insert race yields 500, not a conflict -/

/-- An anchor environment in which a concurrent writer wins the
check-then-insert race, so the insert is rejected by the uniqueness
constraint. -/
def envRace : AnchorEnv :=
  { crypto := cryptoOk, orgs := [fixOrg], hcsExec := hcsOk,
    raceLost := true, now := "2026-01-01T00:00:00Z" }

/-- C7 counterexample: when the insert is rejected by the uniqueness
constraint after the duplicate check passed, the anchor run answers 500
with no proof object — not 409 with the winning proof — refuting the claim
at this input. -/
theorem anchor_race_returns_500_counterexample :
    (anchorDocument envRace fixReq (some fixOrg) []).1.status = 500 ∧
    ¬ (anchorDocument envRace fixReq (some fixOrg) []).1.status = 409 ∧
    (anchorDocument envRace fixReq (some fixOrg) []).1.proof = none := by
  decide

/-- C7 (amended): the anchor controller does not catch the uniqueness
rejection specially.  When the insert is rejected because a concurrent
anchor for the same hash won the race, the Prisma unique-constraint error
(whose message mentions neither `signature` nor `Hedera`) falls through to
the generic catch handler: the response is 500 Internal Server Error with
no proof object — the winning row is not fetched and not returned. -/
theorem anchor_race_lost_returns_500 (env : AnchorEnv) (req : AnchorReq)
    (org fullOrg : Org) (db : List ProofRecord) (res : SubmitResult)
    (resp : AnchorResp) (db2 : List ProofRecord) (effs : List Effect)
    (hpre : strStartsWith req.did "did:hedera:" = true)
    (hsig : verifySignature env.crypto req.did req.documentHash req.signature = true)
    (hfind : env.orgs.find? (fun o => o.did = req.did) = some fullOrg)
    (hfdid : fullOrg.did ≠ "") (hid : fullOrg.id = org.id) (hod : org.did = req.did)
    (hdup : findProofByHash db req.documentHash = none)
    (hsub : submitHashToHCS env.hcsExec req.documentHash req.did req.signature
      = Except.ok res)
    (hrace : env.raceLost = true)
    (hrun : anchorDocument env req (some org) db = (resp, db2, effs)) :
    resp.status = 500 ∧ resp.error = some "Internal Server Error" ∧
    resp.proof = none ∧ db2 = db := by
  have hne : ¬ (req.documentHash = "" ∨ req.did = "" ∨ req.signature = "") := by
    intro h0
    have hfalse : verifySignature env.crypto req.did req.documentHash req.signature
        = false := by
      unfold verifySignature verifySignatureRun
      rw [if_pos (by tauto)]
    rw [hfalse] at hsig
    cases hsig
  have hsig' : (verifySignatureRun env.crypto req.did req.documentHash req.signature).1
      = true := hsig
  have hins : createDocumentProof env.raceLost db req.documentHash res.transactionId
      res.consensusTimestamp req.did env.now
      = Except.error prismaUniqueViolationMsg := by
    unfold createDocumentProof
    rw [if_pos (Or.inl hrace)]
  have hcatch : anchorCatch prismaUniqueViolationMsg =
      { status := 500, error := some "Internal Server Error",
        message := "An error occurred while anchoring the document",
        proof := none } := by
    unfold anchorCatch
    rw [if_neg (by decide), if_neg (by decide)]
  have hcomp : anchorDocument env req (some org) db =
      (anchorCatch prismaUniqueViolationMsg, db,
        (verifySignatureRun env.crypto req.did req.documentHash req.signature).2
          ++ [Effect.orgLookup req.did, Effect.dedupCheck req.documentHash,
              Effect.hcsSubmit req.documentHash req.did req.signature,
              Effect.indexInsert req.documentHash]) := by
    unfold anchorDocument
    rw [if_neg hne, if_neg (by simp [hpre])]
    simp [hsig', hfind, hfdid, hid, hod, hdup, hsub, hins]
  rw [hcomp] at hrun
  simp only [Prod.mk.injEq] at hrun
  obtain ⟨hre, hdb, hef⟩ := hrun
  subst hre; subst hdb; subst hef
  rw [hcatch]
  exact ⟨rfl, rfl, rfl, rfl⟩

/-- Witness for the amended C7 on the fixtures: the race-losing run
answers 500 with no proof and leaves the index unchanged. -/
theorem anchor_race_lost_returns_500_witness :
    (anchorDocument envRace fixReq (some fixOrg) []).1.status = 500 ∧
    (anchorDocument envRace fixReq (some fixOrg) []).1.error
      = some "Internal Server Error" ∧
    (anchorDocument envRace fixReq (some fixOrg) []).1.proof = none ∧
    (anchorDocument envRace fixReq (some fixOrg) []).2.1 = [] :=
  anchor_race_lost_returns_500 envRace fixReq fixOrg fixOrg []
    { transactionId := "0.0.1@1.2", consensusTimestamp := "1700000000.000000001" }
    _ _ _
    (by decide) (by decide) (by decide) (by decide) (by decide) (by decide)
    (by decide) rfl rfl rfl

/-! ### C6 — duplicate anchor: conflict with the stored proof, no-op -/

/-- C6: when the hash is already in the Proof Index, an anchor request that
passes the signature and ownership checks terminates as a no-op: it
returns the stored proof with a 409 conflict signal, performs no new
consensus submission and no index write, and the index — hence the stored
proof — is unchanged, so the proof is identical to the one the first
anchor created. -/
theorem anchor_duplicate_conflict_noop (env : AnchorEnv) (req : AnchorReq)
    (org fullOrg : Org) (db : List ProofRecord) (p : ProofRecord)
    (resp : AnchorResp) (db2 : List ProofRecord) (effs : List Effect)
    (hshape : ¬ (req.documentHash = "" ∨ req.did = "" ∨ req.signature = ""))
    (hpre : strStartsWith req.did "did:hedera:" = true)
    (hsig : verifySignature env.crypto req.did req.documentHash req.signature = true)
    (hfind : env.orgs.find? (fun o => o.did = req.did) = some fullOrg)
    (hfdid : fullOrg.did ≠ "")
    (hid : fullOrg.id = org.id)
    (hod : org.did = req.did)
    (hdup : findProofByHash db req.documentHash = some p)
    (hrun : anchorDocument env req (some org) db = (resp, db2, effs)) :
    resp.status = 409 ∧ resp.error = some "Conflict" ∧
    resp.proof = some { documentHash := p.documentHash,
                        hederaTransactionId := p.hederaTransactionId,
                        consensusTimestamp := p.consensusTimestamp,
                        issuerDid := p.issuerDid,
                        anchoredAt := some p.createdAt } ∧
    db2 = db ∧
    (∀ h d s, Effect.hcsSubmit h d s ∉ effs) ∧
    (∀ h, Effect.indexInsert h ∉ effs) := by
  have hsig' : (verifySignatureRun env.crypto req.did req.documentHash req.signature).1
      = true := hsig
  have hcomp : anchorDocument env req (some org) db =
      (anchorConflictResp p, db,
        (verifySignatureRun env.crypto req.did req.documentHash req.signature).2
          ++ [Effect.orgLookup req.did, Effect.dedupCheck req.documentHash]) := by
    unfold anchorDocument
    rw [if_neg hshape, if_neg (by simp [hpre])]
    simp [hsig', hfind, hfdid, hid, hod, hdup]
  rw [hcomp] at hrun
  simp only [Prod.mk.injEq] at hrun
  obtain ⟨hresp, hdb, heffs⟩ := hrun
  subst hresp; subst hdb; subst heffs
  refine ⟨rfl, rfl, rfl, rfl, ?_, ?_⟩ <;>
    (intros
     intro hmem
     rcases List.mem_append.mp hmem with hm | hm
     · obtain ⟨d', hd'⟩ :=
         verifySignatureRun_effects env.crypto req.did req.documentHash req.signature _ hm
       simp at hd'
     · simp at hm)

/-! ### C2 — verify: NOT_VERIFIED before an anchor, VERIFIED_ON_CHAIN after -/

/-- C2: for a hash not yet in the Proof Index, verify returns
`NOT_VERIFIED`; after a successful anchor of that hash (valid signature,
owned identity, consensus success, index write), verify returns
`VERIFIED_ON_CHAIN`, and the returned proof carries the same hash and
issuer identity — under the hypotheses that the mirror window still
contains the submitted message and that the signature still verifies
against the currently resolved key. -/
theorem verify_not_before_verified_after (env : AnchorEnv) (venv1 venv2 : VerifyEnv)
    (req : AnchorReq) (org fullOrg : Org) (db : List ProofRecord)
    (res : SubmitResult)
    (resp : AnchorResp) (db2 : List ProofRecord) (effs : List Effect)
    (hhex : isHex64CI req.documentHash = true)
    (htrim : strTrim req.documentHash = req.documentHash)
    (hnever : findProofByHash db req.documentHash = none)
    (hpre : strStartsWith req.did "did:hedera:" = true)
    (hsig : verifySignature env.crypto req.did req.documentHash req.signature = true)
    (hfind : env.orgs.find? (fun o => o.did = req.did) = some fullOrg)
    (hfdid : fullOrg.did ≠ "") (hid : fullOrg.id = org.id) (hod : org.did = req.did)
    (hsub : submitHashToHCS env.hcsExec req.documentHash req.did req.signature
      = Except.ok res)
    (hrace : env.raceLost = false)
    (hrun : anchorDocument env req (some org) db = (resp, db2, effs))
    (hmirror : findMessageByHash venv2.mirror req.documentHash =
      Except.ok (some { hash := req.documentHash, did := req.did,
                        signature := req.signature }))
    (hsig2 : verifySignature venv2.crypto req.did req.documentHash req.signature = true) :
    (verifyDocument venv1 db (some req.documentHash)).status = 200 ∧
    (verifyDocument venv1 db (some req.documentHash)).vstatus = some "NOT_VERIFIED" ∧
    resp.status = 201 ∧
    (verifyDocument venv2 db2 (some req.documentHash)).status = 200 ∧
    (verifyDocument venv2 db2 (some req.documentHash)).vstatus = some "VERIFIED_ON_CHAIN" ∧
    (∃ vp, (verifyDocument venv2 db2 (some req.documentHash)).proof = some vp ∧
      vp.hash = req.documentHash ∧ vp.did = req.did) := by
  have hraw : ¬ (req.documentHash = "") := by
    intro h0
    rw [h0] at hhex
    simp [isHex64CI] at hhex
  have hnever' : getProofByHash db req.documentHash = none := hnever
  -- part A: before any anchor of this hash
  have hA : verifyDocument venv1 db (some req.documentHash) =
      notVerifiedResp "This document has not been anchored and cannot be verified." := by
    unfold verifyDocument
    simp [hraw, htrim, hhex, hnever']
  -- part B: the anchor run succeeds and extends the index by the verbatim row
  have hsig' : (verifySignatureRun env.crypto req.did req.documentHash req.signature).1
      = true := hsig
  have hne : ¬ (req.documentHash = "" ∨ req.did = "" ∨ req.signature = "") := by
    rintro (h0 | h0 | h0)
    · exact hraw h0
    · rw [h0] at hpre
      simp [strStartsWith, listStartsWith] at hpre
    · rw [h0] at hsig
      simp [verifySignature, verifySignatureRun] at hsig
  have hnoneSome : (findProofByHash db req.documentHash).isSome = false := by
    rw [hnever]; rfl
  rcases hins : createDocumentProof env.raceLost db req.documentHash
      res.transactionId res.consensusTimestamp req.did env.now with e1 | pr
  · exfalso
    unfold createDocumentProof at hins
    rw [if_neg (by simp [hrace, hnoneSome])] at hins
    cases hins
  obtain ⟨prRec, prDb⟩ := pr
  obtain ⟨hr, hdb2⟩ := createDocumentProof_ok _ _ _ _ _ _ _ _ _ hins
  have hB : anchorDocument env req (some org) db =
      (anchorCreatedResp prRec, prDb,
        (verifySignatureRun env.crypto req.did req.documentHash req.signature).2
          ++ [Effect.orgLookup req.did, Effect.dedupCheck req.documentHash,
              Effect.hcsSubmit req.documentHash req.did req.signature,
              Effect.indexInsert req.documentHash]) := by
    unfold anchorDocument
    rw [if_neg hne, if_neg (by simp [hpre])]
    simp [hsig', hfind, hfdid, hid, hod, hnever, hsub, hins]
  rw [hB] at hrun
  simp only [Prod.mk.injEq] at hrun
  obtain ⟨hresp, hdb, hef⟩ := hrun
  subst hresp; subst hdb; subst hef
  -- part C: verify against the extended index
  have hlookup : getProofByHash prDb req.documentHash = some prRec := by
    rw [hdb2]
    unfold getProofByHash
    rw [find?_append_left_none _ _ _ hnever]
    rw [List.find?_cons_of_pos _ (by simp [hr])]
  have hC : verifyDocument venv2 prDb (some req.documentHash) =
      verifiedResp prRec req.signature
        ((venv2.orgs.find? (fun o => o.did = prRec.issuerDid)).map Org.name)
        (if registryTruthy venv2.registryContractId then
          match isTrustedIssuer venv2.registryContractId venv2.registry req.did with
          | .error _ => false
          | .ok b => b
        else false) := by
    unfold verifyDocument
    simp [hraw, htrim, hhex, hlookup, hmirror, hsig2]
  rw [hA, hC]
  refine ⟨rfl, rfl, rfl, rfl, rfl, ?_⟩
  refine ⟨_, rfl, ?_, ?_⟩
  · rw [hr]
  · rw [hr]

/-- The verify environment matching the fixture anchor: the mirror window
holds the submitted message, no registry is configured. -/
def venvFix : VerifyEnv :=
  { crypto := cryptoOk, orgs := [fixOrg],
    mirror := .ok [some { hash := fixHash, did := fixDid, signature := fixSig }],
    registryContractId := none, registry := fun _ => .ok false }

/-- Witness for C2 on the fixtures: NOT_VERIFIED on the empty index, then
201 from the anchor, then VERIFIED_ON_CHAIN with the same hash and DID. -/
theorem verify_not_before_verified_after_witness :
    (verifyDocument venvFix [] (some fixReq.documentHash)).status = 200 ∧
    (verifyDocument venvFix [] (some fixReq.documentHash)).vstatus = some "NOT_VERIFIED" ∧
    (anchorDocument envOk fixReq (some fixOrg) []).1.status = 201 ∧
    (verifyDocument venvFix (anchorDocument envOk fixReq (some fixOrg) []).2.1
      (some fixReq.documentHash)).status = 200 ∧
    (verifyDocument venvFix (anchorDocument envOk fixReq (some fixOrg) []).2.1
      (some fixReq.documentHash)).vstatus = some "VERIFIED_ON_CHAIN" ∧
    (∃ vp, (verifyDocument venvFix (anchorDocument envOk fixReq (some fixOrg) []).2.1
        (some fixReq.documentHash)).proof = some vp ∧
      vp.hash = fixReq.documentHash ∧ vp.did = fixReq.did) :=
  verify_not_before_verified_after envOk venvFix venvFix fixReq fixOrg fixOrg []
    { transactionId := "0.0.1@1.2", consensusTimestamp := "1700000000.000000001" }
    (anchorDocument envOk fixReq (some fixOrg) []).1
    (anchorDocument envOk fixReq (some fixOrg) []).2.1
    (anchorDocument envOk fixReq (some fixOrg) []).2.2
    (by decide) (by decide) (by decide) (by decide) (by decide) (by decide)
    (by decide) (by decide) (by decide) rfl (by decide) rfl
    rfl (by decide)

/-! ### C3 — a Proof Index row presupposes consensus success -/

/-- C3: the Proof Index is written only after the consensus submission has
returned success.  After any single anchor run (a) every row of the
resulting index was either already there or had a successful consensus
submission for its hash in this run, and (b) if the submission for the
requested hash throws, the index is unchanged and no index-insert is ever
attempted. -/
theorem anchor_index_write_requires_consensus (env : AnchorEnv) (req : AnchorReq)
    (auth : Option Org) (db : List ProofRecord)
    (resp : AnchorResp) (db2 : List ProofRecord) (effs : List Effect)
    (hrun : anchorDocument env req auth db = (resp, db2, effs)) :
    (∀ p, p ∈ db2 → p ∈ db ∨
      ∃ res, submitHashToHCS env.hcsExec p.documentHash req.did req.signature
        = Except.ok res) ∧
    (∀ e, submitHashToHCS env.hcsExec req.documentHash req.did req.signature
        = Except.error e →
      db2 = db ∧ ∀ h, Effect.indexInsert h ∉ effs) := by
  rcases hsub : submitHashToHCS env.hcsExec req.documentHash req.did req.signature
    with e0 | res
  · -- the submission throws: no branch of the run can reach the insert
    unfold anchorDocument at hrun
    simp only [hsub] at hrun
    repeat' split at hrun
    all_goals (
      simp only [Prod.mk.injEq] at hrun
      obtain ⟨hre, hdb, hef⟩ := hrun
      subst hre; subst hdb; subst hef
      refine ⟨fun p hp => Or.inl hp, fun e he => ⟨rfl, fun h hmem => ?_⟩⟩
      simp [List.mem_append, indexInsert_not_in_sig_effects] at hmem)
  · -- the submission succeeds: the second conjunct is vacuous and a new
    -- row can only be the one inserted after this success
    rcases hins : createDocumentProof env.raceLost db req.documentHash
        res.transactionId res.consensusTimestamp req.did env.now with e1 | pr
    · unfold anchorDocument at hrun
      simp only [hsub, hins] at hrun
      repeat' split at hrun
      all_goals (
        simp only [Prod.mk.injEq] at hrun
        obtain ⟨hre, hdb, hef⟩ := hrun
        subst hre; subst hdb; subst hef
        refine ⟨fun p hp => Or.inl hp, fun e he => ?_⟩
        cases he)
    · obtain ⟨prRec, prDb⟩ := pr
      obtain ⟨hr, hdb2⟩ := createDocumentProof_ok _ _ _ _ _ _ _ _ _ hins
      unfold anchorDocument at hrun
      simp only [hsub, hins] at hrun
      repeat' split at hrun
      all_goals (
        simp only [Prod.mk.injEq] at hrun
        obtain ⟨hre, hdb, hef⟩ := hrun
        subst hre; subst hdb; subst hef
        refine ⟨fun p hp => ?_, fun e he => ?_⟩)
      all_goals try cases he
      all_goals try exact Or.inl hp
      -- remaining: the fresh row of the success branch
      subst hdb2
      rcases List.mem_append.mp hp with hm | hm
      · exact Or.inl hm
      · simp only [List.mem_singleton] at hm
        subst hm
        rw [hr]
        exact Or.inr ⟨res, hsub⟩

/-- An anchor environment whose HCS submission throws. -/
def envDown : AnchorEnv :=
  { crypto := cryptoOk, orgs := [fixOrg], hcsExec := hcsDown,
    raceLost := false, now := "2026-01-01T00:00:00Z" }

/-- Witness for C3: with the consensus submission throwing, the fixture
run leaves the index empty and never attempts an insert. -/
theorem anchor_index_write_requires_consensus_witness :
    (∀ p, p ∈ (anchorDocument envDown fixReq (some fixOrg) []).2.1 →
      p ∈ ([] : List ProofRecord) ∨
      ∃ res, submitHashToHCS envDown.hcsExec p.documentHash fixReq.did fixReq.signature
        = Except.ok res) ∧
    (∀ e, submitHashToHCS envDown.hcsExec fixReq.documentHash fixReq.did fixReq.signature
        = Except.error e →
      (anchorDocument envDown fixReq (some fixOrg) []).2.1 = [] ∧
      ∀ h, Effect.indexInsert h ∉ (anchorDocument envDown fixReq (some fixOrg) []).2.2) :=
  anchor_index_write_requires_consensus envDown fixReq (some fixOrg) [] _ _ _ rfl

/-- Witness for C6: re-anchoring the fixture hash over an index that
already holds its proof returns 409 with that proof and changes nothing. -/
theorem anchor_duplicate_conflict_noop_witness :
    (anchorDocument envOk fixReq (some fixOrg) [fixRec]).1.status = 409 ∧
    (anchorDocument envOk fixReq (some fixOrg) [fixRec]).1.error = some "Conflict" ∧
    (anchorDocument envOk fixReq (some fixOrg) [fixRec]).1.proof =
      some { documentHash := fixRec.documentHash,
             hederaTransactionId := fixRec.hederaTransactionId,
             consensusTimestamp := fixRec.consensusTimestamp,
             issuerDid := fixRec.issuerDid,
             anchoredAt := some fixRec.createdAt } ∧
    (anchorDocument envOk fixReq (some fixOrg) [fixRec]).2.1 = [fixRec] ∧
    (∀ h d s, Effect.hcsSubmit h d s ∉ (anchorDocument envOk fixReq (some fixOrg) [fixRec]).2.2) ∧
    (∀ h, Effect.indexInsert h ∉ (anchorDocument envOk fixReq (some fixOrg) [fixRec]).2.2) :=
  anchor_duplicate_conflict_noop envOk fixReq fixOrg fixOrg [fixRec] fixRec
    (anchorDocument envOk fixReq (some fixOrg) [fixRec]).1
    (anchorDocument envOk fixReq (some fixOrg) [fixRec]).2.1
    (anchorDocument envOk fixReq (some fixOrg) [fixRec]).2.2
    (by decide) (by decide) (by decide) (by decide) (by decide) (by decide)
    (by decide) (by decide) rfl

/-! ### C8 — all unverifiable cases look the same: success-shaped NOT_VERIFIED -/

/-- The externally visible part of a verify response: HTTP status, body
status field, proof object (the human-readable `message` differs between
branches and is not part of the claimed observable). -/
def visibleOutcome (r : VerifyResp) : Nat × Option String × Option VProof :=
  (r.status, r.vstatus, r.proof)

/-- C8: the verify operation returns the same success-shaped
`NOT_VERIFIED` visible outcome — HTTP 200, status `NOT_VERIFIED`, no
proof, never an error status — in all three unverifiable cases: hash never
anchored, hash indexed but payload not locatable in the mirror, and
recovered signature failing re-verification. -/
theorem verify_not_verified_uniform (venv : VerifyEnv) (db : List ProofRecord)
    (raw : String)
    (hraw : raw ≠ "")
    (hhex : isHex64CI (strTrim raw) = true) :
    (getProofByHash db (strTrim raw) = none →
      visibleOutcome (verifyDocument venv db (some raw))
        = (200, some "NOT_VERIFIED", none)) ∧
    (∀ p, getProofByHash db (strTrim raw) = some p →
      findMessageByHash venv.mirror (strTrim raw) = Except.ok none →
      visibleOutcome (verifyDocument venv db (some raw))
        = (200, some "NOT_VERIFIED", none)) ∧
    (∀ p m, getProofByHash db (strTrim raw) = some p →
      findMessageByHash venv.mirror (strTrim raw) = Except.ok (some m) →
      verifySignature venv.crypto m.did m.hash m.signature = false →
      visibleOutcome (verifyDocument venv db (some raw))
        = (200, some "NOT_VERIFIED", none)) := by
  refine ⟨fun hnone => ?_, fun p hp hm => ?_, fun p m hp hm hs => ?_⟩
  · have hV : verifyDocument venv db (some raw) =
        notVerifiedResp "This document has not been anchored and cannot be verified." := by
      unfold verifyDocument
      simp [hraw, hhex, hnone]
    rw [hV]; rfl
  · have hV : verifyDocument venv db (some raw) =
        notVerifiedResp "Proof found but could not be verified on-chain." := by
      unfold verifyDocument
      simp [hraw, hhex, hp, hm]
    rw [hV]; rfl
  · have hV : verifyDocument venv db (some raw) =
        notVerifiedResp "Signature verification failed. Document cannot be verified." := by
      unfold verifyDocument
      simp [hraw, hhex, hp, hm, hs]
    rw [hV]; rfl

/-- Mirror window with no entry for the fixture hash. -/
def venvEmptyMirror : VerifyEnv :=
  { crypto := cryptoOk, orgs := [fixOrg], mirror := .ok [],
    registryContractId := none, registry := fun _ => .ok false }

/-- Mirror window intact but the crypto primitive rejects the recovered
signature. -/
def venvReject : VerifyEnv :=
  { crypto := cryptoReject, orgs := [fixOrg],
    mirror := .ok [some { hash := fixHash, did := fixDid, signature := fixSig }],
    registryContractId := none, registry := fun _ => .ok false }

/-- Witness for C8: all three unverifiable cases on the fixtures produce
the identical visible outcome. -/
theorem verify_not_verified_uniform_witness :
    visibleOutcome (verifyDocument venvFix [] (some fixHash))
      = (200, some "NOT_VERIFIED", none) ∧
    visibleOutcome (verifyDocument venvEmptyMirror [fixRec] (some fixHash))
      = (200, some "NOT_VERIFIED", none) ∧
    visibleOutcome (verifyDocument venvReject [fixRec] (some fixHash))
      = (200, some "NOT_VERIFIED", none) :=
  ⟨(verify_not_verified_uniform venvFix [] fixHash (by decide) (by decide)).1
      (by decide),
   (verify_not_verified_uniform venvEmptyMirror [fixRec] fixHash (by decide)
      (by decide)).2.1 fixRec (by decide) rfl,
   (verify_not_verified_uniform venvReject [fixRec] fixHash (by decide)
      (by decide)).2.2 fixRec
      { hash := fixHash, did := fixDid, signature := fixSig }
      (by decide) rfl (by decide)⟩

/-! ### C9 — registry failure never changes a successful verification -/

/-- C9: if the trust registry is unconfigured or its query fails during a
verify that otherwise succeeds, the workflow still answers 200
`VERIFIED_ON_CHAIN` with `isTrustedIssuer = false` — a registry error
never changes the outcome and never produces an error response. -/
theorem verify_registry_failure_degrades (venv : VerifyEnv) (db : List ProofRecord)
    (raw : String) (p : ProofRecord) (m : ProofMsg)
    (hraw : raw ≠ "")
    (hhex : isHex64CI (strTrim raw) = true)
    (hproof : getProofByHash db (strTrim raw) = some p)
    (hmirror : findMessageByHash venv.mirror (strTrim raw) = Except.ok (some m))
    (hsig : verifySignature venv.crypto m.did m.hash m.signature = true)
    (hreg : registryTruthy venv.registryContractId = false ∨
      ∃ e, venv.registry m.did = Except.error e) :
    (verifyDocument venv db (some raw)).status = 200 ∧
    (verifyDocument venv db (some raw)).vstatus = some "VERIFIED_ON_CHAIN" ∧
    (verifyDocument venv db (some raw)).isTrustedIssuer = some false := by
  have hC : verifyDocument venv db (some raw) =
      verifiedResp p m.signature
        ((venv.orgs.find? (fun o => o.did = p.issuerDid)).map Org.name)
        (if registryTruthy venv.registryContractId then
          match isTrustedIssuer venv.registryContractId venv.registry m.did with
          | .error _ => false
          | .ok b => b
        else false) := by
    unfold verifyDocument
    simp [hraw, hhex, hproof, hmirror, hsig]
  have hval : (if registryTruthy venv.registryContractId then
      match isTrustedIssuer venv.registryContractId venv.registry m.did with
      | .error _ => false
      | .ok b => b
    else false) = false := by
    by_cases ht : registryTruthy venv.registryContractId = true
    · rcases hreg with hconf | ⟨e, herr⟩
      · rw [hconf] at ht; cases ht
      · rw [if_pos ht]
        unfold isTrustedIssuer
        rw [if_neg (by simp [ht]), herr]
    · rw [if_neg ht]
  rw [hC, hval]
  exact ⟨rfl, rfl, rfl⟩

/-- A verify environment with a configured registry whose query throws. -/
def venvRegDown : VerifyEnv :=
  { crypto := cryptoOk, orgs := [fixOrg],
    mirror := .ok [some { hash := fixHash, did := fixDid, signature := fixSig }],
    registryContractId := some "0.0.5005", registry := fun _ => .error "unreachable" }

/-- Witness for C9: with the registry throwing, verifying the anchored
fixture still yields VERIFIED_ON_CHAIN with a false trust flag. -/
theorem verify_registry_failure_degrades_witness :
    (verifyDocument venvRegDown [fixRec] (some fixHash)).status = 200 ∧
    (verifyDocument venvRegDown [fixRec] (some fixHash)).vstatus
      = some "VERIFIED_ON_CHAIN" ∧
    (verifyDocument venvRegDown [fixRec] (some fixHash)).isTrustedIssuer
      = some false :=
  verify_registry_failure_degrades venvRegDown [fixRec] fixHash fixRec
    { hash := fixHash, did := fixDid, signature := fixSig }
    (by decide) (by decide) (by decide) rfl (by decide)
    (Or.inr ⟨"unreachable", rfl⟩)

/-! ### C10 — verbatim storage, exact-match lookup: case matters end to end -/

/-- C10: the anchor stores `contentHash` verbatim, while verify accepts a
64-hex hash in either case but looks it up by exact string match.  After a
successful anchor of a hash, verifying any differently-written (for
example, differently-cased) 64-hex form of it passes validation yet
returns `NOT_VERIFIED`. -/
theorem anchor_verbatim_verify_exact (env : AnchorEnv) (venv : VerifyEnv)
    (req : AnchorReq) (org fullOrg : Org) (db : List ProofRecord)
    (res : SubmitResult) (resp : AnchorResp) (db2 : List ProofRecord)
    (effs : List Effect) (hU : String)
    (hhex : isHex64CI req.documentHash = true)
    (hpre : strStartsWith req.did "did:hedera:" = true)
    (hsig : verifySignature env.crypto req.did req.documentHash req.signature = true)
    (hfind : env.orgs.find? (fun o => o.did = req.did) = some fullOrg)
    (hfdid : fullOrg.did ≠ "") (hid : fullOrg.id = org.id) (hod : org.did = req.did)
    (hnever : findProofByHash db req.documentHash = none)
    (hsub : submitHashToHCS env.hcsExec req.documentHash req.did req.signature
      = Except.ok res)
    (hrace : env.raceLost = false)
    (hrun : anchorDocument env req (some org) db = (resp, db2, effs))
    (hUhex : isHex64CI hU = true)
    (hUtrim : strTrim hU = hU)
    (hUne : hU ≠ req.documentHash)
    (hUnone : findProofByHash db hU = none) :
    resp.status = 201 ∧
    (∃ r, db2 = db ++ [r] ∧ r.documentHash = req.documentHash) ∧
    (verifyDocument venv db2 (some hU)).status = 200 ∧
    (verifyDocument venv db2 (some hU)).vstatus = some "NOT_VERIFIED" := by
  have hraw : ¬ (req.documentHash = "") := by
    intro h0; rw [h0] at hhex; simp [isHex64CI] at hhex
  have hne : ¬ (req.documentHash = "" ∨ req.did = "" ∨ req.signature = "") := by
    rintro (h0 | h0 | h0)
    · exact hraw h0
    · rw [h0] at hpre; simp [strStartsWith, listStartsWith] at hpre
    · rw [h0] at hsig; simp [verifySignature, verifySignatureRun] at hsig
  have hsig' : (verifySignatureRun env.crypto req.did req.documentHash req.signature).1
      = true := hsig
  have hnoneSome : (findProofByHash db req.documentHash).isSome = false := by
    rw [hnever]; rfl
  rcases hins : createDocumentProof env.raceLost db req.documentHash
      res.transactionId res.consensusTimestamp req.did env.now with e1 | pr
  · exfalso
    unfold createDocumentProof at hins
    rw [if_neg (by simp [hrace, hnoneSome])] at hins
    cases hins
  obtain ⟨prRec, prDb⟩ := pr
  obtain ⟨hr, hdb2⟩ := createDocumentProof_ok _ _ _ _ _ _ _ _ _ hins
  have hB : anchorDocument env req (some org) db =
      (anchorCreatedResp prRec, prDb,
        (verifySignatureRun env.crypto req.did req.documentHash req.signature).2
          ++ [Effect.orgLookup req.did, Effect.dedupCheck req.documentHash,
              Effect.hcsSubmit req.documentHash req.did req.signature,
              Effect.indexInsert req.documentHash]) := by
    unfold anchorDocument
    rw [if_neg hne, if_neg (by simp [hpre])]
    simp [hsig', hfind, hfdid, hid, hod, hnever, hsub, hins]
  rw [hB] at hrun
  simp only [Prod.mk.injEq] at hrun
  obtain ⟨hresp, hdb, hef⟩ := hrun
  subst hresp; subst hdb; subst hef
  have hUraw : ¬ (hU = "") := by
    intro h0; rw [h0] at hUhex; simp [isHex64CI] at hUhex
  have hUlookup : getProofByHash prDb hU = none := by
    rw [hdb2]
    unfold getProofByHash
    rw [find?_append_left_none _ _ _ hUnone]
    rw [List.find?_cons_of_neg _ (by simp [hr]; exact fun h0 => hUne h0.symm)]
    rfl
  have hV : verifyDocument venv prDb (some hU) =
      notVerifiedResp "This document has not been anchored and cannot be verified." := by
    unfold verifyDocument
    simp [hUraw, hUtrim, hUhex, hUlookup]
  rw [hV]
  exact ⟨rfl, ⟨prRec, hdb2, by rw [hr]⟩, rfl, rfl⟩

/-- Witness for C10: the fixture hash anchored in lowercase; its uppercase
form passes validation but verifies NOT_VERIFIED. -/
theorem anchor_verbatim_verify_exact_witness :
    (anchorDocument envOk fixReq (some fixOrg) []).1.status = 201 ∧
    (∃ r, (anchorDocument envOk fixReq (some fixOrg) []).2.1 = [] ++ [r] ∧
      r.documentHash = fixReq.documentHash) ∧
    (verifyDocument venvFix (anchorDocument envOk fixReq (some fixOrg) []).2.1
      (some fixHashUpper)).status = 200 ∧
    (verifyDocument venvFix (anchorDocument envOk fixReq (some fixOrg) []).2.1
      (some fixHashUpper)).vstatus = some "NOT_VERIFIED" :=
  anchor_verbatim_verify_exact envOk venvFix fixReq fixOrg fixOrg []
    { transactionId := "0.0.1@1.2", consensusTimestamp := "1700000000.000000001" }
    _ _ _ fixHashUpper
    (by decide) (by decide) (by decide) (by decide) (by decide) (by decide)
    (by decide) (by decide) rfl (by decide) rfl
    (by decide) (by decide) (by decide) (by decide)

end Dtrust
